import Mathlib

/-!
Verification development for the resumable recursive Notion crawler
(NotionPuller / NotionAPIClient / PullState).

The definitions below are a shallow embedding of the Python source:
  * `PullState` and its operations embed `notion_rag/utils/persistence.py`
    (`completed_entities` is a Python `set`, modelled as a duplicate-free
    insertion list; `failed_entities` is a Python `dict`, modelled as an
    association list with update-or-append semantics; `save_state` writes
    the whole state to disk, modelled by the `disk` mirror field).
  * `retryLoop` / `retry_with_backoff` embed
    `NotionAPIClient._retry_with_backoff` from `notion_rag/api/client.py`.
    Python floats `api_delay` / `backoff_factor` are modelled as rationals;
    sleeps are recorded in a trace list, attempts as a list of indices.
  * `visit` (below) embeds `NotionPuller._pull_entity_recursive` and its
    helpers from `notion_rag/api/puller.py`, with the remote service as an
    explicit oracle and recursion bounded by fuel (fuel exhaustion behaves
    like a Python RecursionError caught by the per-entity handler).
-/

namespace NotionRag

/-- Boolean membership of a string in a list (models Python `x in set`). -/
def memb (a : String) : List String → Bool
  | [] => false
  | b :: t => if a = b then true else memb a t

/-- Boolean key membership in an association list (models `key in dict`). -/
def keyMem (a : String) : List (String × String) → Bool
  | [] => false
  | p :: t => if p.1 = a then true else keyMem a t

/-- Dict update-or-append: models Python `d[k] = v`. -/
def dictSet (k v : String) : List (String × String) → List (String × String)
  | [] => [(k, v)]
  | p :: t => if p.1 = k then (k, v) :: t else p :: dictSet k v t

/-- Dict key removal: models Python `d.pop(k, None)`. -/
def dictPop (k : String) : List (String × String) → List (String × String)
  | [] => []
  | p :: t => if p.1 = k then dictPop k t else p :: dictPop k t

/--
Progress-store state, embedding class `PullState` of
`notion_rag/utils/persistence.py`.  `disk` mirrors the JSON document written
by `save_state` (fields `completed`, `failed`, `metadata`); every mutating
method rewrites it in full.
-/
structure PullState where
  completed : List String
  failed : List (String × String)
  metadata : List (String × String)
  disk : List String × List (String × String) × List (String × String)
  deriving Repr, DecidableEq

/-- Fresh empty state (state file absent at load). -/
def PullState.empty : PullState :=
  { completed := [], failed := [], metadata := [], disk := ([], [], []) }

/-- Models `PullState.save_state`. -/
def PullState.save_state (s : PullState) : PullState :=
  { s with disk := (s.completed, s.failed, s.metadata) }

/-- Models `PullState.is_completed`. -/
def PullState.is_completed (s : PullState) (entity_id : String) : Bool :=
  memb entity_id s.completed

/-- Models `PullState.mark_completed`: add to the completed set, pop any
failed entry, persist. -/
def PullState.mark_completed (s : PullState) (entity_id : String) : PullState :=
  PullState.save_state
    { s with
      completed := if memb entity_id s.completed then s.completed
                   else s.completed ++ [entity_id]
      failed := dictPop entity_id s.failed }

/-- Models `PullState.mark_failed`: upsert into the failed dict, persist. -/
def PullState.mark_failed (s : PullState) (entity_id error : String) : PullState :=
  PullState.save_state { s with failed := dictSet entity_id error s.failed }

/-- Models `PullState.reset`. -/
def PullState.reset (_s : PullState) : PullState :=
  PullState.save_state { completed := [], failed := [], metadata := [], disk := ([], [], []) }

/-- Models `PullState.reset_failed_entities`: drop the failed ids from the
completed set, clear the failed dict, persist. -/
def PullState.reset_failed_entities (s : PullState) : PullState :=
  PullState.save_state
    { s with
      completed := s.completed.filter (fun c => ! memb c (s.failed.map Prod.fst))
      failed := [] }

/-- Models `PullState.get_failed_entities` (a copy of the failed dict). -/
def PullState.get_failed_entities (s : PullState) : List (String × String) :=
  s.failed

/-- A Python exception: class name and message. -/
structure PyErr where
  etype : String
  emsg : String
  deriving Repr, DecidableEq

/-- Models the Python string `f"\x7btype(e).__name__\x7d: \x7bstr(e)\x7d"`
built at `puller.py:143`. -/
def PyErr.format (e : PyErr) : String :=
  e.etype ++ ": " ++ e.emsg

/-- Retry configuration: fields `api_delay`, `max_retries`, `backoff_factor`
of `notion_rag/config.py` (floats modelled as rationals, `max_retries` is an
`int`, so possibly non-positive). -/
structure RetryConfig where
  api_delay : ℚ
  max_retries : ℤ
  backoff_factor : ℚ
  deriving Repr, DecidableEq

/--
Loop body of `_retry_with_backoff` (client.py lines 20-60), one constructor
per remaining iteration of `for attempt in range(max_retries)`:
sleep `api_delay` before each attempt; on success return the result; on
failure compute `wait = api_delay * backoff_factor ^ attempt`, re-raise if
`attempt == max_retries - 1`, otherwise sleep `wait` and continue.  Returns
the sleep trace, the list of attempt indices issued, and either the result
(`some`), Python `None` when the range is exhausted (`none`), or the
re-raised exception.  The oracle `f` gives each attempt's outcome.
-/
def retryLoop (d b : ℚ) (maxRetries : ℤ) (f : ℕ → Except PyErr α) :
    ℕ → ℕ → List ℚ × List ℕ × Except PyErr (Option α)
  | _, 0 => ([], [], Except.ok none)
  | attempt, remaining + 1 =>
    match f attempt with
    | Except.ok v => ([d], [attempt], Except.ok (some v))
    | Except.error e =>
      let wait := d * b ^ attempt
      if (attempt : ℤ) = maxRetries - 1 then
        ([d], [attempt], Except.error e)
      else
        let rest := retryLoop d b maxRetries f (attempt + 1) remaining
        (d :: wait :: rest.1, attempt :: rest.2.1, rest.2.2)

/-- Models `NotionAPIClient._retry_with_backoff` applied to an operation
whose successive attempts behave as `f`. -/
def retry_with_backoff (cfg : RetryConfig) (f : ℕ → Except PyErr α) :
    List ℚ × List ℕ × Except PyErr (Option α) :=
  retryLoop cfg.api_delay cfg.backoff_factor cfg.max_retries f 0 cfg.max_retries.toNat

/-- Expected sleep trace when every one of `n` attempts fails, starting at
attempt index `a`: `d` before each attempt, and `d * b ^ i` after failed
attempt `i` except the last. -/
def backoffSleeps (d b : ℚ) : ℕ → ℕ → List ℚ
  | _, 0 => []
  | _, 1 => [d]
  | a, n + 2 => d :: d * b ^ a :: backoffSleeps d b (a + 1) (n + 1)

/-- Attempt indices `a, a+1, ..., a+n-1`. -/
def idxRange (a : ℕ) : ℕ → List ℕ
  | 0 => []
  | n + 1 => a :: idxRange (a + 1) n

/-! ## Typed node model (src/api/models.py)

Only the fields the puller inspects are modelled.  `valid` records whether
pydantic validation of the raw payload succeeds (`NotionBlock(**raw)` etc.
raise a ValidationError otherwise). -/

/-- Raw block payload.  `child_database` is the truthiness of the populated
`child_database` variant field of `NotionBlock`; `file_url` is
`<type>.file.url` when the block carries a service-hosted file payload
(`None` models both an absent payload and an external-only file). -/
structure RawBlock where
  id : String
  type : String
  has_children : Bool
  child_database : Bool
  file_url : Option String
  valid : Bool
  deriving Repr, DecidableEq

/-- Raw page payload. -/
structure RawPage where
  id : String
  valid : Bool
  deriving Repr, DecidableEq

/-- Raw database payload. -/
structure RawDb where
  id : String
  valid : Bool
  deriving Repr, DecidableEq

/-- The `NotionEntityType` enum members the crawler passes around (the
`LIST` member is only used as the literal string in children snapshots). -/
inductive EntityType
  | block
  | page
  | database
  deriving Repr, DecidableEq

/-- Models `NotionEntityType.<member>.value`. -/
def EntityType.value : EntityType → String
  | .block => "block"
  | .page => "page"
  | .database => "database"

/-- Values of the `FileAttachmentType` enum. -/
def fileAttachmentTypes : List String := ["file", "image", "video", "audio", "pdf"]

/-- Response of `blocks.children.list`; models `NotionBlockList`. -/
structure BlockListResp where
  results : List RawBlock
  next_cursor : Option String
  has_more : Bool
  valid : Bool
  deriving Repr, DecidableEq

/-- Response of `databases.query`; models `NotionDatabaseQuery`. -/
structure DbQueryResp where
  results : List RawPage
  next_cursor : Option String
  has_more : Bool
  valid : Bool
  deriving Repr, DecidableEq

/-- The typed `main_entity` of `_pull_entity_recursive`
(`NotionBlock | NotionPage | NotionDatabase`). -/
inductive MainEntity
  | block (b : RawBlock)
  | page (p : RawPage)
  | database (d : RawDb)
  deriving Repr, DecidableEq

/-- The AttributeError raised by the attribute access
`main_entity.child_database` when the pydantic class does not declare that
field: of the three models only `NotionBlock` declares `child_database`
(models.py line 275); `NotionPage` (line 483) and `NotionDatabase` do not. -/
def attrErr (cls : String) : PyErr :=
  ⟨"AttributeError", cls ++ " object has no attribute child_database"⟩

/-- Models the Python expression `main_entity.child_database` at
puller.py line 165: a field read on `NotionBlock`, an AttributeError on the
other two classes. -/
def childDatabaseAttr : MainEntity → Except PyErr Bool
  | .block b => Except.ok b.child_database
  | .page _ => Except.error (attrErr "NotionPage")
  | .database _ => Except.error (attrErr "NotionDatabase")

/-- Pydantic validation failure for the named model class. -/
def validationErr (cls : String) : PyErr :=
  ⟨"ValidationError", "invalid payload for " ++ cls⟩

/-- Modelling artifact: raised when the oracle supplies no further pages for
a pagination loop that still sees `has_more`. -/
def oracleExhaustedErr : PyErr :=
  ⟨"OracleExhausted", "remote response sequence exhausted"⟩

/-- The Python RecursionError standing for fuel exhaustion. -/
def recursionErr : PyErr :=
  ⟨"RecursionError", "maximum recursion depth exceeded"⟩

/-- The remote service plus filesystem, as an oracle.  Paginated listings
are given as the sequence of successive responses the client would obtain;
`urlretrieve` returns the size of the downloaded file (`none`: no file was
created) or a network error. -/
structure Oracle where
  get_block : String → Except PyErr RawBlock
  get_page : String → Except PyErr RawPage
  get_database : String → Except PyErr RawDb
  block_children : String → List (Except PyErr BlockListResp)
  db_query : String → List (Except PyErr DbQueryResp)
  urlretrieve : String → Except PyErr (Option ℕ)

/-- A remote call issued through `NotionAPIClient`. -/
inductive ApiCall
  | get_block (entity_id : String)
  | get_page (entity_id : String)
  | get_database (entity_id : String)
  | get_block_children (entity_id : String) (start_cursor : Option String)
  | query_database (entity_id : String) (start_cursor : Option String)
  deriving Repr, DecidableEq

/-- Payload written by `_save_entity_data`. -/
inductive SnapData
  | main_block (b : RawBlock)
  | page_data (p : RawPage)
  | main_page (p : RawPage)
  | main_db (d : RawDb)
  | block_children (results : List RawBlock) (has_more : Bool)
  | db_children (results : List RawPage) (has_more : Bool)
  deriving Repr, DecidableEq

/-- A directory path, as a list of components. -/
abbrev DirPath := List String

/-- Observable actions of the crawler, in order of occurrence. -/
inductive Event
  | call (c : ApiCall)
  | save (entity_id entity_type data_type : String) (data : SnapData) (base : DirPath)
  | retrieve (url : String) (result : Option ℕ)
  | warnLog (msg : String)
  | markCompleted (entity_id : String)
  | markFailed (entity_id msg : String)
  deriving Repr, DecidableEq

/-- Outcome of `_pull_entity_recursive` for one entity (the function itself
never raises). -/
inductive VisitResult
  | completedNow
  | skipped
  | failed (msg : String)
  deriving Repr, DecidableEq

/-- Models the `if start_cursor:` truthiness guard in
`NotionAPIClient.get_block_children` / `query_database`: the cursor kwarg is
only passed when it is a non-empty string. -/
def passCursor : Option String → Option String
  | none => none
  | some c => if c = "" then none else some c

/--
Pagination loop of `_pull_block_children` (puller.py lines 176-191):
call, extend the accumulator with the raw results (before the response is
validated as `NotionBlockList`), stop on the first response with `has_more`
false, otherwise continue with `next_cursor`.  Any exception propagates.
-/
def blockPagLoop (block_id : String) :
    List (Except PyErr BlockListResp) → Option String → List RawBlock →
    List Event × Except PyErr (List RawBlock)
  | [], cursor, _ =>
    ([Event.call (ApiCall.get_block_children block_id (passCursor cursor))],
      Except.error oracleExhaustedErr)
  | r :: rest, cursor, acc =>
    let ev : Event := Event.call (ApiCall.get_block_children block_id (passCursor cursor))
    match r with
    | Except.error e => ([ev], Except.error e)
    | Except.ok resp =>
      let acc2 := acc ++ resp.results
      if ¬ resp.valid then ([ev], Except.error (validationErr "NotionBlockList"))
      else if resp.has_more then
        let rest2 := blockPagLoop block_id rest resp.next_cursor acc2
        (ev :: rest2.1, rest2.2)
      else ([ev], Except.ok acc2)

/-- Pagination loop of `_pull_database_children` (puller.py lines 246-257),
identical shape over `databases.query` responses. -/
def dbPagLoop (database_id : String) :
    List (Except PyErr DbQueryResp) → Option String → List RawPage →
    List Event × Except PyErr (List RawPage)
  | [], cursor, _ =>
    ([Event.call (ApiCall.query_database database_id (passCursor cursor))],
      Except.error oracleExhaustedErr)
  | r :: rest, cursor, acc =>
    let ev : Event := Event.call (ApiCall.query_database database_id (passCursor cursor))
    match r with
    | Except.error e => ([ev], Except.error e)
    | Except.ok resp =>
      let acc2 := acc ++ resp.results
      if ¬ resp.valid then ([ev], Except.error (validationErr "NotionDatabaseQuery"))
      else if resp.has_more then
        let rest2 := dbPagLoop database_id rest resp.next_cursor acc2
        (ev :: rest2.1, rest2.2)
      else ([ev], Except.ok acc2)

/-- Last path segment of a URL, modelling
`urllib.parse.urlparse(url).path.split("/")[-1]` (query strings and
fragments are not modelled; they do not occur in the claims). -/
def lastSegment (url : String) : String :=
  match url.splitOn "://" with
  | [_scheme, rest] =>
    match rest.splitOn "/" with
    | [] => ""
    | [_host] => ""
    | segs => segs.getLastD ""
  | _ => (url.splitOn "/").getLastD ""

/-- Inner download attempt of `_download_file_attachment` (puller.py lines
311-325): run `urlretrieve`; verify the file exists and is non-empty, else
raise `IOError("Downloaded file is empty or missing")`; normalize network
errors to IOError (the `HTTPError` branch at line 320 is unreachable since
`HTTPError` is a subclass of `URLError` and line 318 catches it first). -/
def attemptRetrieve (o : Oracle) (url : String) : List Event × Except PyErr ℕ :=
  match o.urlretrieve url with
  | Except.error e =>
    ([Event.retrieve url none],
      Except.error ⟨"IOError", "Network error downloading file: " ++ e.emsg⟩)
  | Except.ok none =>
    ([Event.retrieve url none],
      Except.error ⟨"IOError", "Downloaded file is empty or missing"⟩)
  | Except.ok (some 0) =>
    ([Event.retrieve url (some 0)],
      Except.error ⟨"IOError", "Downloaded file is empty or missing"⟩)
  | Except.ok (some (n + 1)) =>
    ([Event.retrieve url (some (n + 1))], Except.ok (n + 1))

/-- Outcome of `_download_file_attachment` for the caller (always a normal
return). -/
inductive DlOutcome
  | skipped
  | saved (filename : String) (size : ℕ)
  | warned (msg : String)
  deriving Repr, DecidableEq

/-- Models `_download_file_attachment` (puller.py lines 296-344).  The whole
body sits in a try whose handler logs a WARNING and falls through, so the
function never raises to its caller; the empty-file IOError raised by the
inner verification is absorbed here. -/
def download_file_attachment (o : Oracle) (fb : RawBlock) (_entity_dir : DirPath) :
    List Event × DlOutcome :=
  match fb.file_url with
  | none => ([], DlOutcome.skipped)
  | some url =>
    let seg := lastSegment url
    let filename := if seg = "" then fb.id ++ "." ++ fb.type else seg
    match attemptRetrieve o url with
    | (evs, Except.error e) => (evs ++ [Event.warnLog e.emsg], DlOutcome.warned e.emsg)
    | (evs, Except.ok n) => (evs, DlOutcome.saved filename n)

/-- The type of `_pull_entity_recursive` with its receiver state threaded. -/
abbrev VisitFun := String → EntityType → DirPath → PullState → PullState × List Event × VisitResult

/-- Per-child dispatch of `_pull_block_children` (puller.py lines 204-239).
Each child is handled in its own try/except: a child whose payload fails
`NotionBlock` validation is logged and skipped; recursion itself never
raises.  Branch order follows the elif chain: child_page, child_database,
has_children, file attachment. -/
def dispatchStep (o : Oracle) (visitF : VisitFun) (entity_dir : DirPath)
    (c : RawBlock) (s : PullState) : PullState × List Event :=
  if ¬ c.valid then (s, [])
  else if c.type = "child_page" then
    let r := visitF c.id EntityType.block entity_dir s
    (r.1, r.2.1)
  else if c.type = "child_database" then
    let r := visitF c.id EntityType.database entity_dir s
    (r.1, r.2.1)
  else if c.has_children then
    let r := visitF c.id EntityType.block entity_dir s
    (r.1, r.2.1)
  else if memb c.type fileAttachmentTypes then
    (s, (download_file_attachment o c entity_dir).1)
  else (s, [])

/-- The dispatch loop over accumulated children. -/
def dispatchChildren (o : Oracle) (visitF : VisitFun) (entity_dir : DirPath) :
    List RawBlock → PullState → PullState × List Event
  | [], s => (s, [])
  | c :: rest, s =>
    let step := dispatchStep o visitF entity_dir c s
    let rest2 := dispatchChildren o visitF entity_dir rest step.1
    (rest2.1, step.2 ++ rest2.2)

/-- Models `_pull_block_children` (puller.py lines 171-239): paginate,
persist the accumulated list as one children snapshot with `has_more` false,
then dispatch each child (only when the list is non-empty) under
`block_<id>/`. -/
def pull_block_children (o : Oracle) (visitF : VisitFun) (block_id : String)
    (base : DirPath) (s : PullState) : PullState × List Event × Option PyErr :=
  match blockPagLoop block_id (o.block_children block_id) none [] with
  | (evs, Except.error e) => (s, evs, some e)
  | (evs, Except.ok all) =>
    let evs2 := evs ++
      [Event.save block_id "block" "children" (SnapData.block_children all false) base]
    if all.isEmpty then (s, evs2, none)
    else
      let dir := base ++ ["block_" ++ block_id]
      let d := dispatchChildren o visitF dir all s
      (d.1, evs2 ++ d.2, none)

/-- Per-page loop of `_pull_database_children` (puller.py lines 280-294):
each page is parsed as `NotionPage` in its own try/except and recursed as a
block. -/
def dbStep (visitF : VisitFun) (entity_dir : DirPath) (p : RawPage)
    (s : PullState) : PullState × List Event :=
  if ¬ p.valid then (s, [])
  else
    let r := visitF p.id EntityType.block entity_dir s
    (r.1, r.2.1)

/-- The loop over accumulated database pages. -/
def dbDispatch (o : Oracle) (visitF : VisitFun) (entity_dir : DirPath) :
    List RawPage → PullState → PullState × List Event
  | [], s => (s, [])
  | p :: rest, s =>
    let step := dbStep visitF entity_dir p s
    let rest2 := dbDispatch o visitF entity_dir rest step.1
    (rest2.1, step.2 ++ rest2.2)

/-- Models `_pull_database_children` (puller.py lines 241-294). -/
def pull_database_children (o : Oracle) (visitF : VisitFun) (database_id : String)
    (base : DirPath) (s : PullState) : PullState × List Event × Option PyErr :=
  match dbPagLoop database_id (o.db_query database_id) none [] with
  | (evs, Except.error e) => (s, evs, some e)
  | (evs, Except.ok all) =>
    let evs2 := evs ++
      [Event.save database_id "database" "children" (SnapData.db_children all false) base]
    if all.isEmpty then (s, evs2, none)
    else
      let dir := base ++ ["database_" ++ database_id]
      let d := dbDispatch o visitF dir all s
      (d.1, evs2 ++ d.2, none)

/-- Models `_pull_children` (puller.py lines 155-169).  For Block and Page
entities the guard reads `main_entity.child_database`, which is an
AttributeError unless `main_entity` is a `NotionBlock`. -/
def pull_children (o : Oracle) (visitF : VisitFun) (entity_id : String)
    (t : EntityType) (main : MainEntity) (base : DirPath) (s : PullState) :
    PullState × List Event × Option PyErr :=
  match t with
  | EntityType.block | EntityType.page =>
    match childDatabaseAttr main with
    | Except.error e => (s, [], some e)
    | Except.ok hasDb =>
      if hasDb then
        match pull_database_children o visitF entity_id base s with
        | (s1, evs1, some e) => (s1, evs1, some e)
        | (s1, evs1, none) =>
          let r := pull_block_children o visitF entity_id base s1
          (r.1, evs1 ++ r.2.1, r.2.2)
      else pull_block_children o visitF entity_id base s
  | EntityType.database => pull_database_children o visitF entity_id base s

/-- Fetch, classify and persist the main snapshot (puller.py lines 100-133),
including the extra `page_data` facet for child_page blocks. -/
def fetchMain (o : Oracle) (entity_id : String) (t : EntityType) (base : DirPath) :
    List Event × Except PyErr MainEntity :=
  match t with
  | EntityType.block =>
    match o.get_block entity_id with
    | Except.error e => ([Event.call (ApiCall.get_block entity_id)], Except.error e)
    | Except.ok raw =>
      if ¬ raw.valid then
        ([Event.call (ApiCall.get_block entity_id)], Except.error (validationErr "NotionBlock"))
      else
        let evs0 := [Event.call (ApiCall.get_block entity_id),
                     Event.save entity_id "block" "main" (SnapData.main_block raw) base]
        if raw.type = "child_page" then
          match o.get_page entity_id with
          | Except.error e => (evs0 ++ [Event.call (ApiCall.get_page entity_id)], Except.error e)
          | Except.ok praw =>
            (evs0 ++ [Event.call (ApiCall.get_page entity_id),
                      Event.save entity_id "block" "page_data" (SnapData.page_data praw) base],
              Except.ok (MainEntity.block raw))
        else (evs0, Except.ok (MainEntity.block raw))
  | EntityType.page =>
    match o.get_page entity_id with
    | Except.error e => ([Event.call (ApiCall.get_page entity_id)], Except.error e)
    | Except.ok raw =>
      if ¬ raw.valid then
        ([Event.call (ApiCall.get_page entity_id)], Except.error (validationErr "NotionPage"))
      else
        ([Event.call (ApiCall.get_page entity_id),
          Event.save entity_id "page" "main" (SnapData.main_page raw) base],
          Except.ok (MainEntity.page raw))
  | EntityType.database =>
    match o.get_database entity_id with
    | Except.error e => ([Event.call (ApiCall.get_database entity_id)], Except.error e)
    | Except.ok raw =>
      if ¬ raw.valid then
        ([Event.call (ApiCall.get_database entity_id)],
          Except.error (validationErr "NotionDatabase"))
      else
        ([Event.call (ApiCall.get_database entity_id),
          Event.save entity_id "database" "main" (SnapData.main_db raw) base],
          Except.ok (MainEntity.database raw))

/-- The try-block of `_pull_entity_recursive` (puller.py lines 91-140):
fetch and persist the main entity, pull children, mark completed. -/
def visitBody (o : Oracle) (visitF : VisitFun) (entity_id : String) (t : EntityType)
    (base : DirPath) (s : PullState) : PullState × List Event × Option PyErr :=
  match fetchMain o entity_id t base with
  | (evs, Except.error e) => (s, evs, some e)
  | (evs, Except.ok main) =>
    match pull_children o visitF entity_id t main base s with
    | (s1, evs1, some e) => (s1, evs ++ evs1, some e)
    | (s1, evs1, none) =>
      (s1.mark_completed entity_id,
        evs ++ evs1 ++ [Event.markCompleted entity_id], none)

/-- One unfolding of `_pull_entity_recursive` (puller.py lines 75-153):
skip when already completed; on any exception from the body, record the
failure as `<cause-type>: <cause-message>` and return normally. -/
def visitStep (o : Oracle) (visitF : VisitFun) : VisitFun := fun entity_id t base s =>
  if s.is_completed entity_id then (s, [], VisitResult.skipped)
  else
    match visitBody o visitF entity_id t base s with
    | (s1, evs, none) => (s1, evs, VisitResult.completedNow)
    | (s1, evs, some e) =>
      let msg := e.format
      (s1.mark_failed entity_id msg,
        evs ++ [Event.markFailed entity_id msg], VisitResult.failed msg)

/-- Models `_pull_entity_recursive`, with recursion depth bounded by fuel;
exhausted fuel behaves as a Python RecursionError caught by the per-entity
handler (the is_completed short-circuit still applies first). -/
def visit (o : Oracle) : ℕ → VisitFun
  | 0 => fun entity_id _ _ s =>
    if s.is_completed entity_id then (s, [], VisitResult.skipped)
    else
      let msg := recursionErr.format
      (s.mark_failed entity_id msg, [Event.markFailed entity_id msg],
        VisitResult.failed msg)
  | fuel + 1 => visitStep o (visit o fuel)

/-- The puller writes under `<data_dir>/raw`. -/
def rawDir : DirPath := ["raw"]

/-- The retry loop of `pull_failed_entities_only` (puller.py lines 407-420):
visit each previously failed id as a block; the surrounding per-id
try/except never fires because `_pull_entity_recursive` does not raise.
Also returns each visit's outcome. -/
def retryVisitLoop (o : Oracle) (fuel : ℕ) :
    List String → PullState → PullState × List Event × List (String × VisitResult)
  | [], s => (s, [], [])
  | eid :: rest, s =>
    let r := visit o fuel eid EntityType.block rawDir s
    let rec2 := retryVisitLoop o fuel rest r.1
    (rec2.1, r.2.1 ++ rec2.2.1, (eid, r.2.2) :: rec2.2.2)

/-- Models `pull_failed_entities_only` (puller.py lines 390-420): snapshot
the failed ids, return early when there are none, otherwise
`reset_failed_entities` then re-visit each id as a block. -/
def pull_failed_entities_only (o : Oracle) (fuel : ℕ) (s : PullState) :
    PullState × List Event × List (String × VisitResult) :=
  let failed_ids := s.failed.map Prod.fst
  if failed_ids.isEmpty then (s, [], [])
  else retryVisitLoop o fuel failed_ids s.reset_failed_entities

/-! ## Progress-store operation language and auxiliary predicates -/

/-- The mutating operations of the Progress Store. -/
inductive StoreOp
  | markCompleted (entity_id : String)
  | markFailed (entity_id msg : String)
  | reset
  | resetFailedOnly
  deriving Repr, DecidableEq

/-- Apply one store operation. -/
def applyOp (s : PullState) : StoreOp → PullState
  | StoreOp.markCompleted i => s.mark_completed i
  | StoreOp.markFailed i m => s.mark_failed i m
  | StoreOp.reset => s.reset
  | StoreOp.resetFailedOnly => s.reset_failed_entities

/-- Apply a sequence of store operations, left to right. -/
def applyOps (s : PullState) : List StoreOp → PullState
  | [] => s
  | op :: rest => applyOps (applyOp s op) rest

/-- A sequence follows the crawler normal flow when `markFailed` is only
invoked on ids that are not completed at that moment (the crawler checks
`is_completed` before processing and only fails the id it is processing). -/
def normalFlow (s : PullState) : List StoreOp → Bool
  | [] => true
  | op :: rest =>
    (match op with
     | StoreOp.markFailed i _ => ! s.is_completed i
     | _ => true) && normalFlow (applyOp s op) rest

/-- A node id lies in at most one of the completed set and the failed map. -/
def DisjointState (s : PullState) : Prop :=
  ∀ x, x ∈ s.completed → x ∉ s.failed.map Prod.fst

/-- Events that belong to children pagination or children persistence. -/
def isChildrenEvent : Event → Bool
  | Event.call (ApiCall.get_block_children _ _) => true
  | Event.call (ApiCall.query_database _ _) => true
  | Event.save _ _ dt _ _ => dt = "children"
  | _ => false

/-- State preservation property used for the retry-failed analysis: a
completed id stays completed, and a completed id absent from the failed map
stays absent. -/
def PresC (x : String) (s s2 : PullState) : Prop :=
  (x ∈ s.completed → x ∈ s2.completed) ∧
  (x ∈ s.completed ∧ x ∉ s.failed.map Prod.fst →
    x ∈ s2.completed ∧ x ∉ s2.failed.map Prod.fst)

/-- Concatenated results of block-children pages, in page order. -/
def concatBlockResults : List BlockListResp → List RawBlock
  | [] => []
  | p :: t => p.results ++ concatBlockResults t

/-- Concatenated results of database-query pages, in page order. -/
def concatDbResults : List DbQueryResp → List RawPage
  | [] => []
  | p :: t => p.results ++ concatDbResults t

/-! ## Concrete scenarios used as counterexamples and witnesses -/

/-- A well-formed leaf-ish raw block. -/
def rbScn (i ty : String) (hc : Bool) : RawBlock :=
  ⟨i, ty, hc, false, none, true⟩

/-- Scenario oracle: block `p` has three child_page children `a`, `x`, `b`;
fetching `x` always fails with HTTPError 500; everything else succeeds with
single-page empty children listings. -/
def oracleScn : Oracle where
  get_block := fun i =>
    if i = "x" then Except.error ⟨"HTTPError", "500"⟩
    else Except.ok (rbScn i "paragraph" false)
  get_page := fun _ => Except.error ⟨"HTTPError", "404"⟩
  get_database := fun _ => Except.error ⟨"HTTPError", "404"⟩
  block_children := fun i =>
    if i = "p" then
      [Except.ok ⟨[rbScn "a" "child_page" true, rbScn "x" "child_page" true,
                   rbScn "b" "child_page" true], none, false, true⟩]
    else [Except.ok ⟨[], none, false, true⟩]
  db_query := fun _ => []
  urlretrieve := fun _ => Except.error ⟨"URLError", "no network"⟩

/-- Oracle for the Page-kind scenario: fetching page `pg` succeeds. -/
def oraclePg : Oracle where
  get_block := fun _ => Except.error ⟨"HTTPError", "404"⟩
  get_page := fun _ => Except.ok ⟨"pg", true⟩
  get_database := fun _ => Except.error ⟨"HTTPError", "404"⟩
  block_children := fun _ => [Except.ok ⟨[], none, false, true⟩]
  db_query := fun _ => [Except.ok ⟨[], none, false, true⟩]
  urlretrieve := fun _ => Except.error ⟨"URLError", "no network"⟩

/-- A pdf attachment block with a service-hosted file URL. -/
def fbPdf : RawBlock :=
  ⟨"f1", "pdf", false, false, some "https://host/files/report.pdf", true⟩

/-- Oracle whose downloads always produce a zero-byte file. -/
def oracleDl : Oracle where
  get_block := fun _ => Except.error ⟨"HTTPError", "404"⟩
  get_page := fun _ => Except.error ⟨"HTTPError", "404"⟩
  get_database := fun _ => Except.error ⟨"HTTPError", "404"⟩
  block_children := fun _ => []
  db_query := fun _ => []
  urlretrieve := fun _ => Except.ok (some 0)

/-- First pagination page of the C3 witness scenario (has_more true). -/
def pageOne : BlockListResp :=
  ⟨[rbScn "c1" "paragraph" false, rbScn "c2" "paragraph" false], some "cur2", true, true⟩

/-- Second pagination page of the C3 witness scenario (has_more false). -/
def pageTwo : BlockListResp :=
  ⟨[rbScn "c3" "paragraph" false], none, false, true⟩

/-- First database-query page of the C3 witness scenario. -/
def dbPageOne : DbQueryResp :=
  ⟨[⟨"r1", true⟩], some "cur2", true, true⟩

/-- Second database-query page of the C3 witness scenario. -/
def dbPageTwo : DbQueryResp :=
  ⟨[⟨"r2", true⟩, ⟨"r3", true⟩], none, false, true⟩

/-- Oracle serving the two-page listings above for ids `root` and `rootd`. -/
def oraclePag : Oracle where
  get_block := fun _ => Except.error ⟨"HTTPError", "404"⟩
  get_page := fun _ => Except.error ⟨"HTTPError", "404"⟩
  get_database := fun _ => Except.error ⟨"HTTPError", "404"⟩
  block_children := fun i =>
    if i = "root" then [Except.ok pageOne, Except.ok pageTwo] else []
  db_query := fun i =>
    if i = "rootd" then [Except.ok dbPageOne, Except.ok dbPageTwo] else []
  urlretrieve := fun _ => Except.error ⟨"URLError", "no network"⟩

/-- A state whose failed map holds the single entry `a`, with `q` completed
but never failed. -/
def stateRetryScn : PullState :=
  { completed := ["q"], failed := [("a", "HTTPError: 500")], metadata := [],
    disk := (["q"], [("a", "HTTPError: 500")], []) }

/-! ## Basic lemmas about the data-structure model and retry wrapper -/

theorem memb_iff {a : String} {l : List String} : memb a l = true ↔ a ∈ l := by
  induction l with
  | nil => simp [memb]
  | cons b t ih =>
    by_cases hab : a = b <;> simp [memb, hab, ih]

theorem memb_eq_false_iff {a : String} {l : List String} :
    memb a l = false ↔ a ∉ l := by
  rw [← memb_iff]; cases memb a l <;> simp

theorem keyMem_iff {a : String} {l : List (String × String)} :
    keyMem a l = true ↔ a ∈ l.map Prod.fst := by
  induction l with
  | nil => simp [keyMem]
  | cons p t ih =>
    simp only [keyMem, List.map_cons, List.mem_cons]
    by_cases h : p.1 = a
    · rw [if_pos h]
      exact ⟨fun _ => Or.inl h.symm, fun _ => rfl⟩
    · have hne : ¬ a = p.1 := fun hh => h hh.symm
      simp [h, ih, hne]

theorem keyMem_eq_false_iff {a : String} {l : List (String × String)} :
    keyMem a l = false ↔ a ∉ l.map Prod.fst := by
  rw [← keyMem_iff]; cases keyMem a l <;> simp

theorem mem_completed_mark_completed (s : PullState) (a b : String) :
    a ∈ (s.mark_completed b).completed ↔ a ∈ s.completed ∨ a = b := by
  unfold PullState.mark_completed PullState.save_state
  by_cases h : memb b s.completed = true
  · simp only [h, if_pos rfl]
    constructor
    · intro hm; exact Or.inl hm
    · rintro (hm | rfl)
      · exact hm
      · exact memb_iff.mp h
  · rw [Bool.not_eq_true] at h
    simp [h, or_comm, eq_comm]

theorem self_mem_mark_completed (s : PullState) (a : String) :
    a ∈ (s.mark_completed a).completed := by
  rw [mem_completed_mark_completed]; exact Or.inr rfl

theorem mark_completed_preserves_completed {s : PullState} {a : String} (b : String)
    (h : a ∈ s.completed) : a ∈ (s.mark_completed b).completed := by
  rw [mem_completed_mark_completed]; exact Or.inl h

theorem mem_keys_dictPop {a k : String} {l : List (String × String)} :
    a ∈ (dictPop k l).map Prod.fst ↔ a ∈ l.map Prod.fst ∧ a ≠ k := by
  induction l with
  | nil => simp [dictPop]
  | cons p t ih =>
    by_cases h : p.1 = k
    · rw [show dictPop k (p :: t) = dictPop k t from by simp [dictPop, h]]
      rw [ih]
      simp only [List.map_cons, List.mem_cons]
      constructor
      · rintro ⟨hm, hne⟩
        exact ⟨Or.inr hm, hne⟩
      · rintro ⟨hma, hne⟩
        rcases hma with h1 | h2
        · exact absurd (h1.trans h) hne
        · exact ⟨h2, hne⟩
    · rw [show dictPop k (p :: t) = p :: dictPop k t from by simp [dictPop, h]]
      simp only [List.map_cons, List.mem_cons]
      rw [ih]
      constructor
      · rintro (h1 | ⟨hm, hne⟩)
        · refine ⟨Or.inl h1, ?_⟩
          rw [h1]; exact h
        · exact ⟨Or.inr hm, hne⟩
      · rintro ⟨h1 | h2, hne⟩
        · exact Or.inl h1
        · exact Or.inr ⟨h2, hne⟩

theorem mem_keys_dictSet {a k v : String} {l : List (String × String)} :
    a ∈ (dictSet k v l).map Prod.fst ↔ a ∈ l.map Prod.fst ∨ a = k := by
  induction l with
  | nil => simp [dictSet, eq_comm]
  | cons p t ih =>
    by_cases h : p.1 = k
    · rw [show dictSet k v (p :: t) = (k, v) :: t from by simp [dictSet, h]]
      simp only [List.map_cons, List.mem_cons]
      constructor
      · rintro (h1 | hm)
        · exact Or.inr h1
        · exact Or.inl (Or.inr hm)
      · rintro ((h1 | hm) | h1)
        · exact Or.inl (h1.trans h)
        · exact Or.inr hm
        · exact Or.inl h1
    · rw [show dictSet k v (p :: t) = p :: dictSet k v t from by simp [dictSet, h]]
      simp only [List.map_cons, List.mem_cons]
      rw [ih]; tauto

theorem mark_failed_completed_eq (s : PullState) (a e : String) :
    (s.mark_failed a e).completed = s.completed := rfl

theorem mem_keys_mark_failed {x a e : String} {s : PullState} :
    x ∈ (s.mark_failed a e).failed.map Prod.fst ↔
      x ∈ s.failed.map Prod.fst ∨ x = a := by
  unfold PullState.mark_failed PullState.save_state
  exact mem_keys_dictSet

theorem mem_keys_mark_completed {x a : String} {s : PullState} :
    x ∈ (s.mark_completed a).failed.map Prod.fst ↔
      x ∈ s.failed.map Prod.fst ∧ x ≠ a := by
  unfold PullState.mark_completed PullState.save_state
  exact mem_keys_dictPop

/-! ## Retry wrapper (`NotionAPIClient._retry_with_backoff`) -/


theorem retryLoop_ok (d b : ℚ) (m : ℤ) (f : ℕ → Except PyErr α) (a n : ℕ)
    (v : α) (hfa : f a = Except.ok v) :
    retryLoop d b m f a (n + 1) = ([d], [a], Except.ok (some v)) := by
  simp only [retryLoop, hfa]

theorem retryLoop_err_last (d b : ℚ) (m : ℤ) (f : ℕ → Except PyErr α) (a n : ℕ)
    (e : PyErr) (hfa : f a = Except.error e) (hl : (a : ℤ) = m - 1) :
    retryLoop d b m f a (n + 1) = ([d], [a], Except.error e) := by
  simp only [retryLoop, hfa, if_pos hl]

theorem retryLoop_err_step (d b : ℚ) (m : ℤ) (f : ℕ → Except PyErr α) (a n : ℕ)
    (e : PyErr) (hfa : f a = Except.error e) (hl : ¬ ((a : ℤ) = m - 1)) :
    retryLoop d b m f a (n + 1) =
      (d :: d * b ^ a :: (retryLoop d b m f (a + 1) n).1,
       a :: (retryLoop d b m f (a + 1) n).2.1,
       (retryLoop d b m f (a + 1) n).2.2) := by
  simp only [retryLoop, hfa, if_neg hl]

theorem retryLoop_all_fail (d b : ℚ) (m : ℤ) (f : ℕ → Except PyErr α)
    (errs : ℕ → PyErr) (hf : ∀ i, f i = Except.error (errs i)) :
    ∀ (r a : ℕ), (a : ℤ) + (r : ℤ) = m → 1 ≤ r →
      retryLoop d b m f a r =
        (backoffSleeps d b a r, idxRange a r, Except.error (errs (a + r - 1))) := by
  intro r
  induction r with
  | zero => intro a _ h1; omega
  | succ n ih =>
    intro a hsum _
    cases n with
    | zero =>
      have hlast : (a : ℤ) = m - 1 := by omega
      rw [retryLoop_err_last d b m f a 0 (errs a) (hf a) hlast]
      simp [backoffSleeps, idxRange]
    | succ n =>
      have hnotlast : ¬ ((a : ℤ) = m - 1) := by
        push_cast at hsum ⊢; omega
      have hrec := ih (a + 1) (by push_cast at hsum ⊢; omega) (by omega)
      rw [retryLoop_err_step d b m f a (n + 1) (errs a) (hf a) hnotlast, hrec]
      have hidx : a + 1 + (n + 1) - 1 = a + (n + 1 + 1) - 1 := by omega
      simp [backoffSleeps, idxRange, hidx]

theorem mem_dictSet_self (k v : String) (l : List (String × String)) :
    (k, v) ∈ dictSet k v l := by
  induction l with
  | nil => simp [dictSet]
  | cons p t ih =>
    by_cases h : p.1 = k
    · simp [dictSet, h]
    · simp only [dictSet, h, if_false]
      exact List.mem_cons_of_mem p ih

/-! ## Claim C10 -/

/-- C10: when the configured `max_retries` is zero or negative,
`_retry_with_backoff` iterates `range(max_retries)` zero times: it issues no
attempt, sleeps nothing, raises nothing, and returns Python `None`. -/
theorem C10_zero_retries_no_attempts (α : Type) (cfg : RetryConfig)
    (f : ℕ → Except PyErr α) (h : cfg.max_retries ≤ 0) :
    retry_with_backoff cfg f = ([], [], Except.ok none) := by
  unfold retry_with_backoff
  have h0 : cfg.max_retries.toNat = 0 := by omega
  rw [h0, retryLoop]

theorem C10_zero_retries_no_attempts_witness :
    retry_with_backoff ⟨1, -2, 2⟩ (fun _ => (Except.ok 5 : Except PyErr ℕ)) =
      ([], [], Except.ok none) :=
  C10_zero_retries_no_attempts ℕ ⟨1, -2, 2⟩ _ (by decide)

/-! ## Claim C4 -/

/-- C4: `_retry_with_backoff` sleeps the fixed `api_delay` before every
attempt; after a failed attempt `i` (other than the last) it sleeps
`api_delay * backoff_factor ^ i` and retries, issuing at most `max_retries`
attempts; the final failure is re-raised unchanged.  First conjunct: when
every attempt fails, the attempts are exactly `0 .. max_retries - 1`, the
sleep trace is the expected delay/backoff interleaving, and the exception of
the last attempt is re-raised.  Second conjunct: a call failing twice then
succeeding performs exactly three attempts with backoff waits `api_delay`
and `api_delay * backoff_factor` between them. -/
theorem C4_retry_backoff_behaviour (α : Type) :
    (∀ (cfg : RetryConfig) (f : ℕ → Except PyErr α) (errs : ℕ → PyErr),
      1 ≤ cfg.max_retries → (∀ i, f i = Except.error (errs i)) →
      retry_with_backoff cfg f =
        (backoffSleeps cfg.api_delay cfg.backoff_factor 0 cfg.max_retries.toNat,
         idxRange 0 cfg.max_retries.toNat,
         Except.error (errs (cfg.max_retries.toNat - 1)))) ∧
    (∀ (cfg : RetryConfig) (f : ℕ → Except PyErr α) (e0 e1 : PyErr) (v : α),
      3 ≤ cfg.max_retries → f 0 = Except.error e0 → f 1 = Except.error e1 →
      f 2 = Except.ok v →
      retry_with_backoff cfg f =
        ([cfg.api_delay, cfg.api_delay, cfg.api_delay,
          cfg.api_delay * cfg.backoff_factor, cfg.api_delay],
         [0, 1, 2], Except.ok (some v))) := by
  constructor
  · intro cfg f errs h1 hf
    unfold retry_with_backoff
    have := retryLoop_all_fail cfg.api_delay cfg.backoff_factor cfg.max_retries
      f errs hf cfg.max_retries.toNat 0 (by omega) (by omega)
    simpa using this
  · intro cfg f e0 e1 v h3 h0 h1 h2
    obtain ⟨k, hk⟩ : ∃ k, cfg.max_retries.toNat = k + 3 :=
      ⟨cfg.max_retries.toNat - 3, by omega⟩
    unfold retry_with_backoff
    rw [hk]
    rw [show k + 3 = (k + 2) + 1 from rfl,
      retryLoop_err_step cfg.api_delay cfg.backoff_factor cfg.max_retries f 0 (k + 2)
        e0 h0 (by omega)]
    rw [show (0 : ℕ) + 1 = 1 from rfl, show k + 2 = (k + 1) + 1 from rfl,
      retryLoop_err_step cfg.api_delay cfg.backoff_factor cfg.max_retries f 1 (k + 1)
        e1 h1 (by omega)]
    rw [show (1 : ℕ) + 1 = 2 from rfl,
      retryLoop_ok cfg.api_delay cfg.backoff_factor cfg.max_retries f 2 k v h2]
    simp

theorem C4_retry_backoff_behaviour_witness :
    retry_with_backoff (⟨1, 3, 2⟩ : RetryConfig)
        (fun _ => (Except.error ⟨"APIResponseError", "rate limited"⟩ : Except PyErr ℕ)) =
      (backoffSleeps 1 2 0 3, idxRange 0 3,
       Except.error ⟨"APIResponseError", "rate limited"⟩) ∧
    retry_with_backoff (⟨1, 3, 2⟩ : RetryConfig)
        (fun i => if i ≤ 1 then Except.error ⟨"APIResponseError", "rate limited"⟩
                  else Except.ok (42 : ℕ)) =
      ([1, 1, 1, 1 * 2, 1], [0, 1, 2], Except.ok (some 42)) := by
  constructor
  · exact (C4_retry_backoff_behaviour ℕ).1 ⟨1, 3, 2⟩ _
      (fun _ => ⟨"APIResponseError", "rate limited"⟩) (by decide) (fun _ => rfl)
  · exact (C4_retry_backoff_behaviour ℕ).2 ⟨1, 3, 2⟩ _
      ⟨"APIResponseError", "rate limited"⟩ ⟨"APIResponseError", "rate limited"⟩ 42
      (by decide) rfl rfl rfl

/-! ## Claim C6 -/

/-- C6 counterexample: over arbitrary operation sequences the at-most-one
invariant fails: from the empty store, `mark_completed a` then
`mark_failed a m` leaves `a` both in the completed set and in the failed
map, because `mark_failed` never removes ids from the completed set. -/
theorem C6_counterexample :
    "a" ∈ (applyOps PullState.empty
      [StoreOp.markCompleted "a", StoreOp.markFailed "a" "m"]).completed ∧
    "a" ∈ ((applyOps PullState.empty
      [StoreOp.markCompleted "a", StoreOp.markFailed "a" "m"]).failed.map Prod.fst) := by
  decide

/-- C6 (amended): for operation sequences in which `mark_failed id` is only
invoked while `id` is not completed (the crawler normal flow, which checks
`is_completed` first), a node id stays in at most one of the completed set
and the failed map; moreover `mark_completed id` always removes any prior
failed entry for `id`, and `mark_failed` never removes any id from the
completed set. -/
theorem C6_store_invariants :
    (∀ (s : PullState) (ops : List StoreOp),
      DisjointState s → normalFlow s ops = true → DisjointState (applyOps s ops)) ∧
    (∀ (s : PullState) (i : String),
      i ∉ ((s.mark_completed i).failed.map Prod.fst)) ∧
    (∀ (s : PullState) (i m : String),
      (s.mark_failed i m).completed = s.completed) := by
  refine ⟨?_, ?_, ?_⟩
  · intro s ops
    induction ops generalizing s with
    | nil => intro hd _; exact hd
    | cons op rest ih =>
      intro hd hn
      simp only [normalFlow, Bool.and_eq_true] at hn
      refine ih (applyOp s op) ?_ hn.2
      cases op with
      | markCompleted i =>
        intro x hx
        simp only [applyOp] at hx ⊢
        rw [mem_completed_mark_completed] at hx
        rw [mem_keys_mark_completed]
        rintro ⟨hk, hne⟩
        rcases hx with hx | rfl
        · exact hd x hx hk
        · exact hne rfl
      | markFailed i m =>
        have hni : i ∉ s.completed := by
          have hb := hn.1
          rw [Bool.not_eq_eq_eq_not, Bool.not_true] at hb
          exact memb_eq_false_iff.mp hb
        intro x hx
        simp only [applyOp] at hx ⊢
        rw [mark_failed_completed_eq] at hx
        rw [mem_keys_mark_failed]
        rintro (hk | rfl)
        · exact hd x hx hk
        · exact hni hx
      | reset =>
        intro x hx
        simp [applyOp, PullState.reset, PullState.save_state] at hx
      | resetFailedOnly =>
        intro x _
        simp [applyOp, PullState.reset_failed_entities, PullState.save_state]
  · intro s i
    rw [mem_keys_mark_completed]
    rintro ⟨_, hne⟩
    exact hne rfl
  · intro s i m
    exact mark_failed_completed_eq s i m

theorem C6_store_invariants_witness :
    (DisjointState PullState.empty ∧
     normalFlow PullState.empty
       [StoreOp.markFailed "b" "m", StoreOp.markCompleted "a"] = true ∧
     DisjointState (applyOps PullState.empty
       [StoreOp.markFailed "b" "m", StoreOp.markCompleted "a"])) ∧
    "a" ∉ ((PullState.empty.mark_completed "a").failed.map Prod.fst) ∧
    (PullState.empty.mark_failed "b" "m").completed = PullState.empty.completed := by
  have hempty : DisjointState PullState.empty := by
    intro x hx
    simp [PullState.empty] at hx
  refine ⟨⟨hempty, by decide, ?_⟩, ?_, ?_⟩
  · exact C6_store_invariants.1 PullState.empty _ hempty (by decide)
  · exact C6_store_invariants.2.1 PullState.empty "a"
  · exact C6_store_invariants.2.2 PullState.empty "b" "m"

/-! ## Claim C5 -/

/-- C5 (code-bug evidence): for a Page-kind entity the children-recursion
step does not succeed: `_pull_children` evaluates
`main_entity.child_database` on a `NotionPage`, which has no such field, so
an AttributeError is raised before any children pagination; the page entity
is then recorded as failed by the enclosing handler and no block-children
call is ever issued.  (For Block-kind entities the attribute read succeeds
and the step recurses as specified.) -/
theorem C5_page_kind_children_step_raises :
    (∀ (o : Oracle) (visitF : VisitFun) (eid : String) (p : RawPage)
        (base : DirPath) (s : PullState),
      pull_children o visitF eid EntityType.page (MainEntity.page p) base s =
        (s, [], some (attrErr "NotionPage"))) ∧
    (visit oraclePg 2 "pg" EntityType.page rawDir PullState.empty =
      (PullState.empty.mark_failed "pg"
         "AttributeError: NotionPage object has no attribute child_database",
       [Event.call (ApiCall.get_page "pg"),
        Event.save "pg" "page" "main" (SnapData.main_page ⟨"pg", true⟩) rawDir,
        Event.markFailed "pg"
          "AttributeError: NotionPage object has no attribute child_database"],
       VisitResult.failed
         "AttributeError: NotionPage object has no attribute child_database")) ∧
    ((visit oraclePg 2 "pg" EntityType.page rawDir PullState.empty).2.1.filter
        isChildrenEvent = []) := by
  refine ⟨fun o visitF eid p base s => rfl, by decide, by decide⟩

/-! ## Claim C8 -/

/-- C8 counterexample: a download that produces a zero-byte file makes the
inner verification raise IOError, but `_download_file_attachment` catches it
in its own outer handler, logs a warning, and returns normally: no error
surfaces to the per-child isolation of `_pull_block_children`. -/
theorem C8_counterexample :
    attemptRetrieve oracleDl "https://host/files/report.pdf" =
      ([Event.retrieve "https://host/files/report.pdf" (some 0)],
       Except.error ⟨"IOError", "Downloaded file is empty or missing"⟩) ∧
    download_file_attachment oracleDl fbPdf ["raw", "block_p"] =
      ([Event.retrieve "https://host/files/report.pdf" (some 0),
        Event.warnLog "Downloaded file is empty or missing"],
       DlOutcome.warned "Downloaded file is empty or missing") := by
  exact ⟨rfl, by decide⟩

/-- C8 (amended): for an attachment whose download produces an empty or
missing local file, the inner verification raises
`IOError("Downloaded file is empty or missing")`, which the outermost
try/except of `_download_file_attachment` absorbs: the routine logs a
warning and returns normally, so nothing reaches the per-child isolation in
`_pull_block_children`, whose dispatch simply records the download events
and continues with the remaining children from an unchanged state. -/
theorem C8_empty_download_absorbed (o : Oracle) (fb : RawBlock) (dir : DirPath)
    (url : String) (hurl : fb.file_url = some url)
    (hret : o.urlretrieve url = Except.ok none ∨
            o.urlretrieve url = Except.ok (some 0)) :
    ∃ evs,
      attemptRetrieve o url =
        (evs, Except.error ⟨"IOError", "Downloaded file is empty or missing"⟩) ∧
      download_file_attachment o fb dir =
        (evs ++ [Event.warnLog "Downloaded file is empty or missing"],
         DlOutcome.warned "Downloaded file is empty or missing") ∧
      (∀ (visitF : VisitFun) (rest : List RawBlock) (s : PullState),
        fb.valid = true → memb fb.type fileAttachmentTypes = true →
        fb.type ≠ "child_page" → fb.type ≠ "child_database" →
        fb.has_children = false →
        dispatchChildren o visitF dir (fb :: rest) s =
          ((dispatchChildren o visitF dir rest s).1,
           (evs ++ [Event.warnLog "Downloaded file is empty or missing"]) ++
             (dispatchChildren o visitF dir rest s).2)) := by
  have hatt : ∃ evs, attemptRetrieve o url =
      (evs, Except.error ⟨"IOError", "Downloaded file is empty or missing"⟩) := by
    rcases hret with hr | hr
    · exact ⟨[Event.retrieve url none], by simp [attemptRetrieve, hr]⟩
    · exact ⟨[Event.retrieve url (some 0)], by simp [attemptRetrieve, hr]⟩
  obtain ⟨evs, hevs⟩ := hatt
  have hdl : download_file_attachment o fb dir =
      (evs ++ [Event.warnLog "Downloaded file is empty or missing"],
       DlOutcome.warned "Downloaded file is empty or missing") := by
    unfold download_file_attachment
    rw [hurl]
    simp only [hevs]
  refine ⟨evs, hevs, hdl, ?_⟩
  intro visitF rest s hvalid hatt2 hnp hnd hnc
  simp only [dispatchChildren, dispatchStep, hvalid, hnp, hnd, hnc, hatt2, hdl,
    not_true_eq_false, if_false, if_true, Bool.false_eq_true]

theorem C8_empty_download_absorbed_witness :
    ∃ evs,
      attemptRetrieve oracleDl "https://host/files/report.pdf" =
        (evs, Except.error ⟨"IOError", "Downloaded file is empty or missing"⟩) ∧
      download_file_attachment oracleDl fbPdf ["raw", "block_p"] =
        (evs ++ [Event.warnLog "Downloaded file is empty or missing"],
         DlOutcome.warned "Downloaded file is empty or missing") ∧
      (∀ (visitF : VisitFun) (rest : List RawBlock) (s : PullState),
        fbPdf.valid = true → memb fbPdf.type fileAttachmentTypes = true →
        fbPdf.type ≠ "child_page" → fbPdf.type ≠ "child_database" →
        fbPdf.has_children = false →
        dispatchChildren oracleDl visitF ["raw", "block_p"] (fbPdf :: rest) s =
          ((dispatchChildren oracleDl visitF ["raw", "block_p"] rest s).1,
           (evs ++ [Event.warnLog "Downloaded file is empty or missing"]) ++
             (dispatchChildren oracleDl visitF ["raw", "block_p"] rest s).2)) :=
  C8_empty_download_absorbed oracleDl fbPdf ["raw", "block_p"]
    "https://host/files/report.pdf" rfl (Or.inr rfl)

/-! ## Lemmas about visit -/

theorem visit_completed_noop (o : Oracle) (fuel : ℕ) (eid : String)
    (t : EntityType) (base : DirPath) (s : PullState)
    (h : s.is_completed eid = true) :
    visit o fuel eid t base s = (s, [], VisitResult.skipped) := by
  cases fuel with
  | zero => simp [visit, h]
  | succ n => simp [visit, visitStep, h]

theorem visit_skipped_inv (o : Oracle) (fuel : ℕ) (eid : String)
    (t : EntityType) (base : DirPath) (s : PullState)
    (h : (visit o fuel eid t base s).2.2 = VisitResult.skipped) :
    visit o fuel eid t base s = (s, [], VisitResult.skipped) ∧
      s.is_completed eid = true := by
  by_cases hc : s.is_completed eid = true
  · exact ⟨visit_completed_noop o fuel eid t base s hc, hc⟩
  · exfalso
    cases fuel with
    | zero => simp [visit, hc] at h
    | succ n =>
      rcases hb : visitBody o (visit o n) eid t base s with ⟨s1, evs, err⟩
      cases err with
      | none => simp [visit, visitStep, hc, hb] at h
      | some e => simp [visit, visitStep, hc, hb] at h

theorem visitBody_none_decomp (o : Oracle) (visitF : VisitFun) (eid : String)
    (t : EntityType) (base : DirPath) (s s1 : PullState) (evs : List Event)
    (h : visitBody o visitF eid t base s = (s1, evs, none)) :
    ∃ fevs main pevs s3,
      fetchMain o eid t base = (fevs, Except.ok main) ∧
      pull_children o visitF eid t main base s = (s3, pevs, none) ∧
      s1 = s3.mark_completed eid ∧
      evs = fevs ++ pevs ++ [Event.markCompleted eid] := by
  unfold visitBody at h
  rcases hf : fetchMain o eid t base with ⟨fevs, fres⟩
  rw [hf] at h
  cases fres with
  | error e => simp at h
  | ok main =>
    dsimp only at h
    rcases hp : pull_children o visitF eid t main base s with ⟨s3, pevs, err3⟩
    rw [hp] at h
    cases err3 with
    | none =>
      simp only [Prod.mk.injEq, and_true] at h
      exact ⟨fevs, main, pevs, s3, rfl, hp, h.1.symm, h.2.symm⟩
    | some e => simp at h

theorem visit_completedNow_state (o : Oracle) (fuel : ℕ) (eid : String)
    (t : EntityType) (base : DirPath) (s : PullState)
    (h : (visit o fuel eid t base s).2.2 = VisitResult.completedNow) :
    eid ∈ (visit o fuel eid t base s).1.completed ∧
      eid ∉ ((visit o fuel eid t base s).1.failed.map Prod.fst) := by
  cases fuel with
  | zero =>
    exfalso
    by_cases hc : s.is_completed eid = true <;> simp [visit, hc] at h
  | succ n =>
    by_cases hc : s.is_completed eid = true
    · exfalso; simp [visit, visitStep, hc] at h
    · rcases hb : visitBody o (visit o n) eid t base s with ⟨s1, evs, err⟩
      cases err with
      | some e => exfalso; simp [visit, visitStep, hc, hb] at h
      | none =>
        have hv : visit o (n + 1) eid t base s = (s1, evs, VisitResult.completedNow) := by
          simp [visit, visitStep, hc, hb]
        rw [hv]
        obtain ⟨fevs, main, pevs, s3, _, _, hs1, _⟩ :=
          visitBody_none_decomp o (visit o n) eid t base s s1 evs hb
        rw [hs1]
        refine ⟨self_mem_mark_completed s3 eid, ?_⟩
        intro hk
        rw [mem_keys_mark_completed] at hk
        exact hk.2 rfl

theorem visit_failed_state (o : Oracle) (fuel : ℕ) (eid : String)
    (t : EntityType) (base : DirPath) (s : PullState) (m : String)
    (h : (visit o fuel eid t base s).2.2 = VisitResult.failed m) :
    ∃ s1 : PullState, (visit o fuel eid t base s).1 = s1.mark_failed eid m := by
  cases fuel with
  | zero =>
    by_cases hc : s.is_completed eid = true
    · exfalso; simp [visit, hc] at h
    · have h2 := h
      simp [visit, hc] at h2
      subst h2
      exact ⟨s, by simp [visit, hc]⟩
  | succ n =>
    by_cases hc : s.is_completed eid = true
    · exfalso; simp [visit, visitStep, hc] at h
    · rcases hb : visitBody o (visit o n) eid t base s with ⟨s1, evs, err⟩
      cases err with
      | none => exfalso; simp [visit, visitStep, hc, hb] at h
      | some e =>
        refine ⟨s1, ?_⟩
        have hm : m = e.format := by
          simpa [visit, visitStep, hc, hb] using h.symm
        simp [visit, visitStep, hc, hb, hm]

/-! ## Claim C1 -/

/-- C1 counterexample: after a first `visit` of `x` that fails (its fetch
raises), the second `visit` of `x` with no intervening reset is not a no-op:
it issues the remote fetch again. -/
theorem C1_counterexample :
    (visit oracleScn 1 "x" EntityType.block rawDir
        ((visit oracleScn 1 "x" EntityType.block rawDir PullState.empty).1)).2.1 =
      [Event.call (ApiCall.get_block "x"),
       Event.markFailed "x" "HTTPError: 500"] ∧
    (visit oracleScn 1 "x" EntityType.block rawDir
        ((visit oracleScn 1 "x" EntityType.block rawDir PullState.empty).1)).2.1 ≠
      [] := by
  exact ⟨by decide, by decide⟩

/-- C1 (amended): visiting an id already recorded as completed is a no-op:
the call returns immediately with the state unchanged and an empty event
trace (no remote call, no snapshot, no store mutation).  Consequently, when
a first visit does not fail (it completed the id or skipped it), the second
visit with no intervening reset is a no-op; a failed first visit leaves the
id un-completed, and the second visit re-fetches it. -/
theorem C1_completed_visit_noop :
    (∀ (o : Oracle) (fuel : ℕ) (eid : String) (t : EntityType)
        (base : DirPath) (s : PullState),
      s.is_completed eid = true →
      visit o fuel eid t base s = (s, [], VisitResult.skipped)) ∧
    (∀ (o : Oracle) (fuel fuel2 : ℕ) (eid : String) (t : EntityType)
        (base : DirPath) (s : PullState),
      (∀ m, (visit o fuel eid t base s).2.2 ≠ VisitResult.failed m) →
      visit o fuel2 eid t base ((visit o fuel eid t base s).1) =
        ((visit o fuel eid t base s).1, [], VisitResult.skipped)) := by
  refine ⟨fun o fuel eid t base s h => visit_completed_noop o fuel eid t base s h, ?_⟩
  intro o fuel fuel2 eid t base s hnf
  rcases hr : (visit o fuel eid t base s).2.2 with _ | _ | m
  · have hmem := (visit_completedNow_state o fuel eid t base s hr).1
    exact visit_completed_noop o fuel2 eid t base _ (memb_iff.mpr hmem)
  · obtain ⟨heq, hc⟩ := visit_skipped_inv o fuel eid t base s hr
    rw [heq]
    exact visit_completed_noop o fuel2 eid t base s hc
  · exact absurd hr (hnf m)

theorem C1_completed_visit_noop_witness :
    ((PullState.empty.mark_completed "a").is_completed "a" = true ∧
     visit oracleScn 1 "a" EntityType.block rawDir
        (PullState.empty.mark_completed "a") =
       (PullState.empty.mark_completed "a", [], VisitResult.skipped)) ∧
    ((∀ m, (visit oracleScn 1 "a" EntityType.block rawDir PullState.empty).2.2 ≠
        VisitResult.failed m) ∧
     visit oracleScn 1 "a" EntityType.block rawDir
        ((visit oracleScn 1 "a" EntityType.block rawDir PullState.empty).1) =
       ((visit oracleScn 1 "a" EntityType.block rawDir PullState.empty).1, [],
        VisitResult.skipped)) := by
  constructor
  · exact ⟨by decide,
      C1_completed_visit_noop.1 oracleScn 1 "a" EntityType.block rawDir
        (PullState.empty.mark_completed "a") (by decide)⟩
  · have hnf : ∀ m,
        (visit oracleScn 1 "a" EntityType.block rawDir PullState.empty).2.2 ≠
          VisitResult.failed m := by
      intro m
      have : (visit oracleScn 1 "a" EntityType.block rawDir PullState.empty).2.2 =
          VisitResult.completedNow := by decide
      rw [this]
      intro hcontra
      cases hcontra
    exact ⟨hnf,
      C1_completed_visit_noop.2 oracleScn 1 1 "a" EntityType.block rawDir
        PullState.empty hnf⟩

/-! ## Claim C2 -/

/-- C2: whenever the body of `_pull_entity_recursive` (fetch, classify,
snapshot persistence, children recursion) raises an exception `e` on an
uncompleted id, the handler records the id in the failed map with message
`<cause-type>: <cause-message>` and returns normally instead of propagating.
The second conjunct runs the sibling-isolation scenario: block `p` has three
children; fetching child `x` always raises HTTPError 500; after visiting `p`
the parent and both sibling children are completed, and `x` appears in the
failed map only. -/
theorem C2_failure_recorded_and_isolated :
    (∀ (o : Oracle) (fuel : ℕ) (eid : String) (t : EntityType) (base : DirPath)
        (s s1 : PullState) (evs : List Event) (e : PyErr),
      s.is_completed eid = false →
      visitBody o (visit o fuel) eid t base s = (s1, evs, some e) →
      visit o (fuel + 1) eid t base s =
        (s1.mark_failed eid (e.etype ++ ": " ++ e.emsg),
         evs ++ [Event.markFailed eid (e.etype ++ ": " ++ e.emsg)],
         VisitResult.failed (e.etype ++ ": " ++ e.emsg)) ∧
      (eid, e.etype ++ ": " ++ e.emsg) ∈
        (visit o (fuel + 1) eid t base s).1.failed) ∧
    ((visit oracleScn 2 "p" EntityType.block rawDir PullState.empty).1.completed =
        ["a", "b", "p"] ∧
     (visit oracleScn 2 "p" EntityType.block rawDir PullState.empty).1.failed =
        [("x", "HTTPError: 500")] ∧
     (visit oracleScn 2 "p" EntityType.block rawDir PullState.empty).2.2 =
        VisitResult.completedNow ∧
     "x" ∉ (visit oracleScn 2 "p" EntityType.block rawDir PullState.empty).1.completed) := by
  constructor
  · intro o fuel eid t base s s1 evs e hnc hb
    have hv : visit o (fuel + 1) eid t base s =
        (s1.mark_failed eid e.format,
         evs ++ [Event.markFailed eid e.format],
         VisitResult.failed e.format) := by
      simp [visit, visitStep, hnc, hb]
    have hfmt : e.format = e.etype ++ ": " ++ e.emsg := rfl
    rw [hfmt] at hv
    refine ⟨hv, ?_⟩
    rw [hv]
    exact mem_dictSet_self eid (e.etype ++ ": " ++ e.emsg) s1.failed
  · exact ⟨by decide, by decide, by decide, by decide⟩

theorem C2_failure_recorded_and_isolated_witness :
    visit oracleScn 1 "x" EntityType.block rawDir PullState.empty =
      (PullState.empty.mark_failed "x" "HTTPError: 500",
       [Event.call (ApiCall.get_block "x"),
        Event.markFailed "x" "HTTPError: 500"],
       VisitResult.failed "HTTPError: 500") ∧
    ("x", "HTTPError: 500") ∈
      (visit oracleScn 1 "x" EntityType.block rawDir PullState.empty).1.failed := by
  have h := C2_failure_recorded_and_isolated.1 oracleScn 0 "x" EntityType.block
    rawDir PullState.empty PullState.empty [Event.call (ApiCall.get_block "x")]
    ⟨"HTTPError", "500"⟩ rfl (by decide)
  exact h

/-! ## Claim C3 -/

theorem blockPagLoop_spec (bid : String) :
    ∀ (front : List BlockListResp) (lastp : BlockListResp)
      (rest : List (Except PyErr BlockListResp)) (cursor : Option String)
      (acc : List RawBlock),
      (∀ p ∈ front, p.has_more = true ∧ p.valid = true) →
      lastp.has_more = false → lastp.valid = true →
      ∃ cevs,
        blockPagLoop bid ((front ++ [lastp]).map Except.ok ++ rest) cursor acc =
          (cevs, Except.ok (acc ++ concatBlockResults (front ++ [lastp]))) ∧
        ∀ ev ∈ cevs, ∃ c, ev = Event.call c := by
  intro front
  induction front with
  | nil =>
    intro lastp rest cursor acc _ hlm hlv
    refine ⟨[Event.call (ApiCall.get_block_children bid (passCursor cursor))], ?_, ?_⟩
    · simp [blockPagLoop, hlv, hlm, concatBlockResults]
    · intro ev hev
      simp only [List.mem_singleton] at hev
      exact ⟨_, hev⟩
  | cons p front ih =>
    intro lastp rest cursor acc hf hlm hlv
    obtain ⟨cevs, hloop, hcalls⟩ := ih lastp rest p.next_cursor (acc ++ p.results)
      (fun q hq => hf q (List.mem_cons_of_mem _ hq)) hlm hlv
    have hp := hf p (List.mem_cons_self _ _)
    refine ⟨Event.call (ApiCall.get_block_children bid (passCursor cursor)) :: cevs,
      ?_, ?_⟩
    · have hloop2 := hloop
      simp only [List.map_append, List.map_cons, List.map_nil, List.singleton_append,
        List.nil_append, List.append_assoc] at hloop2
      simp [blockPagLoop, hp.1, hp.2, hloop2, concatBlockResults, List.append_assoc]
    · intro ev hev
      rcases List.mem_cons.mp hev with hev | hev
      · exact ⟨_, hev⟩
      · exact hcalls ev hev

theorem dbPagLoop_spec (did : String) :
    ∀ (front : List DbQueryResp) (lastp : DbQueryResp)
      (rest : List (Except PyErr DbQueryResp)) (cursor : Option String)
      (acc : List RawPage),
      (∀ p ∈ front, p.has_more = true ∧ p.valid = true) →
      lastp.has_more = false → lastp.valid = true →
      ∃ cevs,
        dbPagLoop did ((front ++ [lastp]).map Except.ok ++ rest) cursor acc =
          (cevs, Except.ok (acc ++ concatDbResults (front ++ [lastp]))) ∧
        ∀ ev ∈ cevs, ∃ c, ev = Event.call c := by
  intro front
  induction front with
  | nil =>
    intro lastp rest cursor acc _ hlm hlv
    refine ⟨[Event.call (ApiCall.query_database did (passCursor cursor))], ?_, ?_⟩
    · simp [dbPagLoop, hlv, hlm, concatDbResults]
    · intro ev hev
      simp only [List.mem_singleton] at hev
      exact ⟨_, hev⟩
  | cons p front ih =>
    intro lastp rest cursor acc hf hlm hlv
    obtain ⟨cevs, hloop, hcalls⟩ := ih lastp rest p.next_cursor (acc ++ p.results)
      (fun q hq => hf q (List.mem_cons_of_mem _ hq)) hlm hlv
    have hp := hf p (List.mem_cons_self _ _)
    refine ⟨Event.call (ApiCall.query_database did (passCursor cursor)) :: cevs,
      ?_, ?_⟩
    · have hloop2 := hloop
      simp only [List.map_append, List.map_cons, List.map_nil, List.singleton_append,
        List.nil_append, List.append_assoc] at hloop2
      simp [dbPagLoop, hp.1, hp.2, hloop2, concatDbResults, List.append_assoc]
    · intro ev hev
      rcases List.mem_cons.mp hev with hev | hev
      · exact ⟨_, hev⟩
      · exact hcalls ev hev

/-- C3: for a children listing whose successive remote responses are
`front ++ [lastp]` (all of `front` with `has_more` true, `lastp` with
`has_more` false, arbitrary further oracle responses never consumed), both
pagination loops accumulate the items of all pages in order, stop at
`lastp`, and persist exactly one children snapshot holding the full
accumulated list with `has_more` set to false; the events preceding the
snapshot are exactly the page fetch calls. -/
theorem C3_pagination_full_snapshot :
    (∀ (o : Oracle) (visitF : VisitFun) (bid : String) (base : DirPath)
        (s : PullState) (front : List BlockListResp) (lastp : BlockListResp)
        (rest : List (Except PyErr BlockListResp)),
      o.block_children bid = (front ++ [lastp]).map Except.ok ++ rest →
      (∀ p ∈ front, p.has_more = true ∧ p.valid = true) →
      lastp.has_more = false → lastp.valid = true →
      ∃ (s2 : PullState) (cevs devs : List Event),
        pull_block_children o visitF bid base s =
          (s2,
           cevs ++
             (Event.save bid "block" "children"
               (SnapData.block_children
                 (concatBlockResults (front ++ [lastp])) false) base :: devs),
           none) ∧
        ∀ ev ∈ cevs, ∃ c, ev = Event.call c) ∧
    (∀ (o : Oracle) (visitF : VisitFun) (did : String) (base : DirPath)
        (s : PullState) (front : List DbQueryResp) (lastp : DbQueryResp)
        (rest : List (Except PyErr DbQueryResp)),
      o.db_query did = (front ++ [lastp]).map Except.ok ++ rest →
      (∀ p ∈ front, p.has_more = true ∧ p.valid = true) →
      lastp.has_more = false → lastp.valid = true →
      ∃ (s2 : PullState) (cevs devs : List Event),
        pull_database_children o visitF did base s =
          (s2,
           cevs ++
             (Event.save did "database" "children"
               (SnapData.db_children
                 (concatDbResults (front ++ [lastp])) false) base :: devs),
           none) ∧
        ∀ ev ∈ cevs, ∃ c, ev = Event.call c) := by
  constructor
  · intro o visitF bid base s front lastp rest ho hf hlm hlv
    obtain ⟨cevs, hloop, hcalls⟩ := blockPagLoop_spec bid front lastp rest none [] hf hlm hlv
    rw [List.nil_append] at hloop
    unfold pull_block_children
    rw [ho, hloop]
    by_cases he : (concatBlockResults (front ++ [lastp])).isEmpty
    · refine ⟨s, cevs, [], ?_, hcalls⟩
      simp [he]
    · refine ⟨(dispatchChildren o visitF (base ++ ["block_" ++ bid])
          (concatBlockResults (front ++ [lastp])) s).1, cevs,
        (dispatchChildren o visitF (base ++ ["block_" ++ bid])
          (concatBlockResults (front ++ [lastp])) s).2, ?_, hcalls⟩
      simp [he]
  · intro o visitF did base s front lastp rest ho hf hlm hlv
    obtain ⟨cevs, hloop, hcalls⟩ := dbPagLoop_spec did front lastp rest none [] hf hlm hlv
    rw [List.nil_append] at hloop
    unfold pull_database_children
    rw [ho, hloop]
    by_cases he : (concatDbResults (front ++ [lastp])).isEmpty
    · refine ⟨s, cevs, [], ?_, hcalls⟩
      simp [he]
    · refine ⟨(dbDispatch o visitF (base ++ ["database_" ++ did])
          (concatDbResults (front ++ [lastp])) s).1, cevs,
        (dbDispatch o visitF (base ++ ["database_" ++ did])
          (concatDbResults (front ++ [lastp])) s).2, ?_, hcalls⟩
      simp [he]

theorem C3_pagination_full_snapshot_witness :
    (∃ (s2 : PullState) (cevs devs : List Event),
      pull_block_children oraclePag (visit oraclePag 1) "root" rawDir
          PullState.empty =
        (s2,
         cevs ++
           (Event.save "root" "block" "children"
             (SnapData.block_children
               (concatBlockResults ([pageOne] ++ [pageTwo])) false) rawDir :: devs),
         none) ∧
      ∀ ev ∈ cevs, ∃ c, ev = Event.call c) ∧
    (∃ (s2 : PullState) (cevs devs : List Event),
      pull_database_children oraclePag (visit oraclePag 1) "rootd" rawDir
          PullState.empty =
        (s2,
         cevs ++
           (Event.save "rootd" "database" "children"
             (SnapData.db_children
               (concatDbResults ([dbPageOne] ++ [dbPageTwo])) false) rawDir :: devs),
         none) ∧
      ∀ ev ∈ cevs, ∃ c, ev = Event.call c) := by
  constructor
  · exact C3_pagination_full_snapshot.1 oraclePag (visit oraclePag 1) "root" rawDir
      PullState.empty [pageOne] pageTwo [] rfl
      (by intro p hp; simp only [List.mem_singleton] at hp; rw [hp]; exact ⟨rfl, rfl⟩)
      rfl rfl
  · exact C3_pagination_full_snapshot.2 oraclePag (visit oraclePag 1) "rootd" rawDir
      PullState.empty [dbPageOne] dbPageTwo [] rfl
      (by intro p hp; simp only [List.mem_singleton] at hp; rw [hp]; exact ⟨rfl, rfl⟩)
      rfl rfl

/-! ## Claim C9 -/

theorem fetchMain_ok_events (o : Oracle) (eid : String) (t : EntityType)
    (base : DirPath) (evs : List Event) (main : MainEntity)
    (h : fetchMain o eid t base = (evs, Except.ok main)) :
    ∃ c d extra,
      evs = Event.call c :: Event.save eid t.value "main" d base :: extra ∧
      isChildrenEvent (Event.call c) = false := by
  cases t
  all_goals simp only [fetchMain] at h
  all_goals repeat' split at h
  all_goals first
    | exact ⟨_, _, _, (congrArg Prod.fst h).symm, rfl⟩
    | simp at h

/-- C9: whenever `_pull_entity_recursive` completes an entity, its event
trace starts with the main fetch call followed immediately by the
persistence of the entity main snapshot, strictly before any
children-pagination or children-persistence event (which all lie in `mid`),
and `markCompleted` is the final event, emitted only after the required
children pulls returned successfully. -/
theorem C9_main_snapshot_before_children (o : Oracle) (fuel : ℕ) (eid : String)
    (t : EntityType) (base : DirPath) (s s2 : PullState) (evs : List Event)
    (h : visit o fuel eid t base s = (s2, evs, VisitResult.completedNow)) :
    ∃ c d mid,
      evs = (Event.call c :: Event.save eid t.value "main" d base :: mid) ++
        [Event.markCompleted eid] ∧
      isChildrenEvent (Event.call c) = false ∧
      evs.getLast? = some (Event.markCompleted eid) := by
  cases fuel with
  | zero =>
    exfalso
    by_cases hc : s.is_completed eid = true <;> simp [visit, hc] at h
  | succ n =>
    by_cases hc : s.is_completed eid = true
    · exfalso; simp [visit, visitStep, hc] at h
    · rcases hb : visitBody o (visit o n) eid t base s with ⟨s1, evs1, err⟩
      cases err with
      | some e => exfalso; simp [visit, visitStep, hc, hb] at h
      | none =>
        have hv : visit o (n + 1) eid t base s = (s1, evs1, VisitResult.completedNow) := by
          simp [visit, visitStep, hc, hb]
        rw [hv] at h
        have hevs : evs = evs1 := by
          have h2 := congrArg (fun x => x.2.1) h
          simpa using h2.symm
        obtain ⟨fevs, main, pevs, s3, hfm, hpc, hs1, hevs1⟩ :=
          visitBody_none_decomp o (visit o n) eid t base s s1 evs1 hb
        obtain ⟨c, d, extra, hfevs, hcall⟩ :=
          fetchMain_ok_events o eid t base fevs main hfm
        refine ⟨c, d, extra ++ pevs, ?_, hcall, ?_⟩
        · rw [hevs, hevs1, hfevs]
          simp [List.append_assoc]
        · rw [hevs, hevs1]
          exact List.getLast?_concat _

theorem C9_main_snapshot_before_children_witness :
    ∃ c d mid,
      (visit oracleScn 1 "a" EntityType.block rawDir PullState.empty).2.1 =
        (Event.call c ::
          Event.save "a" EntityType.block.value "main" d rawDir :: mid) ++
          [Event.markCompleted "a"] ∧
      isChildrenEvent (Event.call c) = false ∧
      (visit oracleScn 1 "a" EntityType.block rawDir PullState.empty).2.1.getLast? =
        some (Event.markCompleted "a") :=
  C9_main_snapshot_before_children oracleScn 1 "a" EntityType.block rawDir
    PullState.empty
    ((visit oracleScn 1 "a" EntityType.block rawDir PullState.empty).1)
    ((visit oracleScn 1 "a" EntityType.block rawDir PullState.empty).2.1)
    (by decide)

/-! ## Claim C7 -/

theorem presC_rfl (x : String) (s : PullState) : PresC x s s :=
  ⟨id, id⟩

theorem presC_trans {x : String} {s s2 s3 : PullState}
    (h1 : PresC x s s2) (h2 : PresC x s2 s3) : PresC x s s3 :=
  ⟨fun h => h2.1 (h1.1 h), fun h => h2.2 (h1.2 h)⟩

theorem presC_mark_completed (x : String) (s : PullState) (eid : String) :
    PresC x s (s.mark_completed eid) := by
  constructor
  · exact fun h => mark_completed_preserves_completed eid h
  · rintro ⟨hc, hf⟩
    refine ⟨mark_completed_preserves_completed eid hc, ?_⟩
    intro hk
    rw [mem_keys_mark_completed] at hk
    exact hf hk.1

theorem not_completed_of_guard {s : PullState} {eid : String}
    (hc : ¬ s.is_completed eid = true) : eid ∉ s.completed := by
  apply memb_eq_false_iff.mp
  unfold PullState.is_completed at hc
  cases h : memb eid s.completed
  · rfl
  · exact absurd h hc

/-- Preservation through `mark_failed eid` when `eid` was not completed at
the start of the enclosing visit. -/
theorem presC_mark_failed_of_guard {x eid : String} {s s1 : PullState}
    (heid : eid ∉ s.completed) (hbody : PresC x s s1) (m : String) :
    PresC x s (s1.mark_failed eid m) := by
  constructor
  · intro hx
    rw [mark_failed_completed_eq]
    exact hbody.1 hx
  · rintro ⟨hxc, hxf⟩
    have h2 := hbody.2 ⟨hxc, hxf⟩
    refine ⟨by rw [mark_failed_completed_eq]; exact h2.1, ?_⟩
    intro hk
    rw [mem_keys_mark_failed] at hk
    rcases hk with hk | rfl
    · exact h2.2 hk
    · exact heid hxc

theorem presC_dispatchStep (o : Oracle) (x : String) (visitF : VisitFun)
    (hvf : ∀ eid t base s, PresC x s (visitF eid t base s).1)
    (dir : DirPath) (c : RawBlock) (s : PullState) :
    PresC x s (dispatchStep o visitF dir c s).1 := by
  unfold dispatchStep
  repeat' split
  all_goals first
    | exact presC_rfl x s
    | exact hvf _ _ _ _

theorem presC_dispatchChildren (o : Oracle) (x : String) (visitF : VisitFun)
    (hvf : ∀ eid t base s, PresC x s (visitF eid t base s).1) (dir : DirPath) :
    ∀ (cs : List RawBlock) (s : PullState),
      PresC x s (dispatchChildren o visitF dir cs s).1 := by
  intro cs
  induction cs with
  | nil => intro s; exact presC_rfl x s
  | cons c rest ih =>
    intro s
    exact presC_trans (presC_dispatchStep o x visitF hvf dir c s)
      (ih (dispatchStep o visitF dir c s).1)

theorem presC_dbStep (x : String) (visitF : VisitFun)
    (hvf : ∀ eid t base s, PresC x s (visitF eid t base s).1)
    (dir : DirPath) (p : RawPage) (s : PullState) :
    PresC x s (dbStep visitF dir p s).1 := by
  unfold dbStep
  split
  · exact presC_rfl x s
  · exact hvf _ _ _ _

theorem presC_dbDispatch (o : Oracle) (x : String) (visitF : VisitFun)
    (hvf : ∀ eid t base s, PresC x s (visitF eid t base s).1) (dir : DirPath) :
    ∀ (ps : List RawPage) (s : PullState),
      PresC x s (dbDispatch o visitF dir ps s).1 := by
  intro ps
  induction ps with
  | nil => intro s; exact presC_rfl x s
  | cons p rest ih =>
    intro s
    exact presC_trans (presC_dbStep x visitF hvf dir p s)
      (ih (dbStep visitF dir p s).1)

theorem presC_pull_block_children (o : Oracle) (x : String) (visitF : VisitFun)
    (hvf : ∀ eid t base s, PresC x s (visitF eid t base s).1)
    (bid : String) (base : DirPath) (s : PullState) :
    PresC x s (pull_block_children o visitF bid base s).1 := by
  unfold pull_block_children
  repeat' split
  all_goals first
    | exact presC_rfl x s
    | exact presC_dispatchChildren o x visitF hvf _ _ s

theorem presC_pull_database_children (o : Oracle) (x : String) (visitF : VisitFun)
    (hvf : ∀ eid t base s, PresC x s (visitF eid t base s).1)
    (did : String) (base : DirPath) (s : PullState) :
    PresC x s (pull_database_children o visitF did base s).1 := by
  unfold pull_database_children
  repeat' split
  all_goals first
    | exact presC_rfl x s
    | exact presC_dbDispatch o x visitF hvf _ _ s

theorem presC_pull_children (o : Oracle) (x : String) (visitF : VisitFun)
    (hvf : ∀ eid t base s, PresC x s (visitF eid t base s).1)
    (eid : String) (t : EntityType) (main : MainEntity) (base : DirPath)
    (s : PullState) :
    PresC x s (pull_children o visitF eid t main base s).1 := by
  unfold pull_children
  cases t with
  | database => exact presC_pull_database_children o x visitF hvf eid base s
  | block | page =>
    cases childDatabaseAttr main with
    | error e => exact presC_rfl x s
    | ok hasDb =>
      cases hasDb with
      | false => exact presC_pull_block_children o x visitF hvf eid base s
      | true =>
        have h1 := presC_pull_database_children o x visitF hvf eid base s
        rcases hdb : pull_database_children o visitF eid base s with ⟨s1, evs1, err1⟩
        rw [hdb] at h1
        cases err1 with
        | some e => exact h1
        | none =>
          exact presC_trans h1 (presC_pull_block_children o x visitF hvf eid base s1)

theorem presC_visitBody (o : Oracle) (x : String) (visitF : VisitFun)
    (hvf : ∀ eid t base s, PresC x s (visitF eid t base s).1)
    (eid : String) (t : EntityType) (base : DirPath) (s : PullState) :
    PresC x s (visitBody o visitF eid t base s).1 := by
  unfold visitBody
  rcases hf : fetchMain o eid t base with ⟨fevs, fres⟩
  cases fres with
  | error e => exact presC_rfl x s
  | ok main =>
    dsimp only
    have h1 := presC_pull_children o x visitF hvf eid t main base s
    rcases hp : pull_children o visitF eid t main base s with ⟨s1, evs1, err⟩
    rw [hp] at h1
    cases err with
    | some e => exact h1
    | none => exact presC_trans h1 (presC_mark_completed x s1 eid)

theorem presC_visit (o : Oracle) (x : String) :
    ∀ (fuel : ℕ) (eid : String) (t : EntityType) (base : DirPath) (s : PullState),
      PresC x s (visit o fuel eid t base s).1 := by
  intro fuel
  induction fuel with
  | zero =>
    intro eid t base s
    by_cases hc : s.is_completed eid = true
    · have heq : (visit o 0 eid t base s).1 = s := by simp [visit, hc]
      rw [heq]; exact presC_rfl x s
    · have heq : (visit o 0 eid t base s).1 =
          s.mark_failed eid recursionErr.format := by simp [visit, hc]
      rw [heq]
      exact presC_mark_failed_of_guard (not_completed_of_guard hc)
        (presC_rfl x s) recursionErr.format
  | succ n ih =>
    intro eid t base s
    by_cases hc : s.is_completed eid = true
    · have heq : (visit o (n + 1) eid t base s).1 = s := by
        simp [visit, visitStep, hc]
      rw [heq]; exact presC_rfl x s
    · rcases hb : visitBody o (visit o n) eid t base s with ⟨s1, evs1, err⟩
      have hbody := presC_visitBody o x (visit o n) ih eid t base s
      rw [hb] at hbody
      cases err with
      | none =>
        have heq : (visit o (n + 1) eid t base s).1 = s1 := by
          simp [visit, visitStep, hc, hb]
        rw [heq]; exact hbody
      | some e =>
        have heq : (visit o (n + 1) eid t base s).1 =
            s1.mark_failed eid e.format := by
          simp [visit, visitStep, hc, hb]
        rw [heq]
        exact presC_mark_failed_of_guard (not_completed_of_guard hc) hbody e.format

theorem retryVisitLoop_keys (o : Oracle) (fuel : ℕ) :
    ∀ (ids : List String) (s : PullState),
      (retryVisitLoop o fuel ids s).2.2.map Prod.fst = ids := by
  intro ids
  induction ids with
  | nil => intro s; rfl
  | cons eid rest ih =>
    intro s
    simp only [retryVisitLoop, List.map_cons]
    rw [ih]

theorem presC_retryVisitLoop (o : Oracle) (fuel : ℕ) (x : String) :
    ∀ (ids : List String) (s : PullState),
      PresC x s (retryVisitLoop o fuel ids s).1 := by
  intro ids
  induction ids with
  | nil => intro s; exact presC_rfl x s
  | cons eid rest ih =>
    intro s
    exact presC_trans (presC_visit o x fuel eid EntityType.block rawDir s)
      (ih (visit o fuel eid EntityType.block rawDir s).1)

theorem retryVisitLoop_success (o : Oracle) (fuel : ℕ) (x : String) :
    ∀ (ids : List String) (s : PullState),
      (x, VisitResult.completedNow) ∈ (retryVisitLoop o fuel ids s).2.2 →
      x ∈ (retryVisitLoop o fuel ids s).1.completed ∧
        x ∉ ((retryVisitLoop o fuel ids s).1.failed.map Prod.fst) := by
  intro ids
  induction ids with
  | nil =>
    intro s hmem
    simp [retryVisitLoop] at hmem
  | cons eid rest ih =>
    intro s hmem
    have hloop : retryVisitLoop o fuel (eid :: rest) s =
        ((retryVisitLoop o fuel rest
            (visit o fuel eid EntityType.block rawDir s).1).1,
         (visit o fuel eid EntityType.block rawDir s).2.1 ++
           (retryVisitLoop o fuel rest
             (visit o fuel eid EntityType.block rawDir s).1).2.1,
         (eid, (visit o fuel eid EntityType.block rawDir s).2.2) ::
           (retryVisitLoop o fuel rest
             (visit o fuel eid EntityType.block rawDir s).1).2.2) := rfl
    rw [hloop] at hmem ⊢
    rcases List.mem_cons.mp hmem with hhead | htail
    · have hx : x = eid := congrArg Prod.fst hhead
      cases hx
      have hr : (visit o fuel x EntityType.block rawDir s).2.2 =
          VisitResult.completedNow := (congrArg Prod.snd hhead).symm
      have h1 := visit_completedNow_state o fuel x EntityType.block rawDir s hr
      exact (presC_retryVisitLoop o fuel x rest
        (visit o fuel x EntityType.block rawDir s).1).2 ⟨h1.1, h1.2⟩
    · exact ih (visit o fuel eid EntityType.block rawDir s).1 htail

/-- C7: `reset_failed_entities` removes exactly the failed ids from the
completed set, clears the failed map, persists the result, and keeps every
completed id that was never failed (first conjunct).  After
`pull_failed_entities_only`, any id whose re-visit in the retry loop
completed is present in the completed set and absent from the failed map of
the final state (second conjunct). -/
theorem C7_reset_failed_and_retry :
    (∀ s : PullState,
      (s.reset_failed_entities).completed =
        s.completed.filter (fun c => ! memb c (s.failed.map Prod.fst)) ∧
      (s.reset_failed_entities).failed = [] ∧
      (s.reset_failed_entities).disk =
        (s.completed.filter (fun c => ! memb c (s.failed.map Prod.fst)), [],
         s.metadata) ∧
      (∀ x, x ∈ s.completed → x ∉ s.failed.map Prod.fst →
        x ∈ (s.reset_failed_entities).completed)) ∧
    (∀ (o : Oracle) (fuel : ℕ) (s : PullState) (x : String),
      (x, VisitResult.completedNow) ∈ (pull_failed_entities_only o fuel s).2.2 →
      x ∈ (pull_failed_entities_only o fuel s).1.completed ∧
        x ∉ ((pull_failed_entities_only o fuel s).1.failed.map Prod.fst)) := by
  constructor
  · intro s
    refine ⟨rfl, rfl, rfl, ?_⟩
    intro x hxc hxf
    show x ∈ s.completed.filter (fun c => ! memb c (s.failed.map Prod.fst))
    rw [List.mem_filter]
    refine ⟨hxc, ?_⟩
    rw [Bool.not_eq_true']
    exact memb_eq_false_iff.mpr hxf
  · intro o fuel s x hmem
    simp only [pull_failed_entities_only] at hmem ⊢
    by_cases hemp : (s.failed.map Prod.fst).isEmpty
    · rw [if_pos hemp] at hmem
      simp at hmem
    · rw [if_neg hemp] at hmem ⊢
      exact retryVisitLoop_success o fuel x _ _ hmem

theorem C7_reset_failed_and_retry_witness :
    ("q" ∈ stateRetryScn.completed ∧
     "q" ∉ (stateRetryScn.failed.map Prod.fst) ∧
     "q" ∈ (stateRetryScn.reset_failed_entities).completed) ∧
    (("a", VisitResult.completedNow) ∈
        (pull_failed_entities_only oracleScn 2 stateRetryScn).2.2 ∧
     "a" ∈ (pull_failed_entities_only oracleScn 2 stateRetryScn).1.completed ∧
     "a" ∉ ((pull_failed_entities_only oracleScn 2 stateRetryScn).1.failed.map
        Prod.fst)) := by
  refine ⟨⟨by decide, by decide, ?_⟩, ⟨by decide, ?_, ?_⟩⟩
  · exact (C7_reset_failed_and_retry.1 stateRetryScn).2.2.2 "q" (by decide) (by decide)
  · exact (C7_reset_failed_and_retry.2 oracleScn 2 stateRetryScn "a" (by decide)).1
  · exact (C7_reset_failed_and_retry.2 oracleScn 2 stateRetryScn "a" (by decide)).2

end NotionRag
